import Mathlib

/-!
Shallow embedding of the aegis-ai authentication core: password hashing
wrappers (src/lib/auth/password.ts), Zod validation schemas
(src/lib/validations/auth.ts), the Credentials `authorize` function and the
jwt/session callbacks of the Auth.js configuration, the route guards
(`requireAuth`, `requireRole`), and the server actions `signUpAction` and
`signInWithCredentials` (src/app/actions/auth.ts).

JavaScript values are embedded as follows: `Date` becomes a `Nat` timestamp,
`T | null` and optional fields become `Option`, the identity store behind the
ORM becomes a list of rows queried with `List.find?`, and a thrown
redirect/error becomes an explicit constructor of a result type.
-/

namespace Aegis

/-- The closed role enum `"admin" | "user" | "viewer"` from the extended
next-auth type declarations. -/
inductive Role where
  | admin
  | user
  | viewer
deriving DecidableEq, Repr

/-- Serialization of a role back to its wire string, used where the source
compares a role against a `string[]`. -/
def roleString : Role → String
  | .admin => "admin"
  | .user => "user"
  | .viewer => "viewer"

/-- A JS `Date` value, embedded as an epoch timestamp. -/
abbrev Timestamp := Nat

/-- An output of the bcrypt hash function: the cost factor, the random salt,
and the digest body. The real library renders these as one string; the
structure keeps the components explicit. -/
structure BcryptDigest where
  cost : Nat
  salt : String
  body : String
deriving DecidableEq, Repr

/-- Modelled from the spec: the bcryptjs `hash` function (library code, not in
the repository) applies a computationally expensive salted one-way transform
with the given work factor. The idealized model records the salt and an
injective function of the plaintext as the digest body; it is accessed only
through `bcryptCompare`. -/
def bcryptHash (salt : String) (cost : Nat) (plaintext : String) : BcryptDigest :=
  { cost := cost, salt := salt, body := plaintext }

/-- Modelled from the spec: the bcryptjs `compare` function re-derives the
digest from the plaintext and the stored salt and checks it against the stored
body; it returns false on mismatch and never throws. -/
def bcryptCompare (plaintext : String) (digest : BcryptDigest) : Bool :=
  digest.body == plaintext

/-- `hashPassword` from src/lib/auth/password.ts: bcrypt hash with 12 rounds.
The salt chosen by the library at call time is passed explicitly. -/
def hashPassword (salt : String) (password : String) : BcryptDigest :=
  bcryptHash salt 12 password

/-- `verifyPassword` from src/lib/auth/password.ts: delegate to the hash
function's own compare. -/
def verifyPassword (password : String) (hashedPassword : BcryptDigest) : Bool :=
  bcryptCompare password hashedPassword

/-- A persisted identity row of the `users` table: id, name, unique email,
optional password hash (absent for OAuth-only accounts), role, verification
timestamp (null if unverified), optional image. -/
structure DbUser where
  id : String
  name : Option String
  email : String
  password : Option BcryptDigest
  role : Role
  emailVerified : Option Timestamp
  image : Option String
deriving DecidableEq, Repr

/-- The identity store: the rows of the `users` table. -/
abbrev Db := List DbUser

/-- The drizzle query `select … where eq(users.email, email) limit 1`:
first row whose email matches exactly. -/
def findUserByEmail (db : Db) (email : String) : Option DbUser :=
  db.find? (fun u => u.email == email)

/-- Modelled from the spec: the Zod `z.email` shape check (library code, not
in the repository) — an RFC-shape test, abstracted here as exactly one `@`
separating a nonempty local part and a nonempty domain, with no spaces. -/
def zEmail (s : String) : Bool :=
  let cs := s.toList
  let localPart := cs.takeWhile (fun c => c != '@')
  let domain := (cs.dropWhile (fun c => c != '@')).drop 1
  (cs.count '@' == 1) && !localPart.isEmpty && !domain.isEmpty && !(cs.contains ' ')

/-- The character class `[a-z]` of the signup password pattern. -/
def isAsciiLower (c : Char) : Bool := 'a' ≤ c && c ≤ 'z'

/-- The character class `[A-Z]` of the signup password pattern. -/
def isAsciiUpper (c : Char) : Bool := 'A' ≤ c && c ≤ 'Z'

/-- The character class `\d` of the signup password pattern. -/
def isAsciiDigit (c : Char) : Bool := '0' ≤ c && c ≤ '9'

/-- The signup password regex `(?=.*[a-z])(?=.*[A-Z])(?=.*\d)`: at least one
lowercase letter, one uppercase letter and one digit. -/
def passwordPattern (s : String) : Bool :=
  s.toList.any isAsciiLower && s.toList.any isAsciiUpper && s.toList.any isAsciiDigit

/-- The `SignupInput` payload `\x7bname, email, password\x7d` inferred from the
signup schema. -/
structure SignupInput where
  name : String
  email : String
  password : String
deriving DecidableEq, Repr

/-- `signupSchema.parse` from src/lib/validations/auth.ts: name 2–100 chars,
email shape, password 8–100 chars matching the strength pattern. A failure
throws a ZodError; the embedding returns the failing field's message (the
max-bound checks use the library's default wording, abbreviated). -/
def signupParse (data : SignupInput) : Except String SignupInput :=
  if data.name.length < 2 then
    .error "Name must be at least 2 characters"
  else if 100 < data.name.length then
    .error "Name is too long"
  else if !zEmail data.email then
    .error "Invalid email address"
  else if data.password.length < 8 then
    .error "Password must be at least 8 characters"
  else if 100 < data.password.length then
    .error "Password is too long"
  else if !passwordPattern data.password then
    .error "Password must contain at least one uppercase letter, one lowercase letter, and one number"
  else
    .ok data

/-- `loginSchema.parse` from src/lib/validations/auth.ts as a pass/fail check:
email shape and nonempty password. The `authorize` catch turns a parse throw
into a null result, so only the verdict matters there. -/
def loginParse (email password : String) : Bool :=
  zEmail email && !password.toList.isEmpty

/-- The user object returned by a successful credentials `authorize` — the
object literal of src/unnamed/part_001 lines 110–118, built without the
password field. -/
structure AuthUser where
  id : String
  email : String
  name : Option String
  image : Option String
  role : Role
  emailVerified : Option Timestamp
deriving DecidableEq, Repr

/-- The Credentials `authorize` function from the Auth.js configuration:
validate the payload, look the user up by email, reject when absent or
without a stored hash, verify the password, and on success return the user
object without the password. Validation and lookup errors are caught and
yield null. -/
def authorize (db : Db) (email password : String) : Option AuthUser :=
  if loginParse email password then
    match findUserByEmail db email with
    | none => none
    | some user =>
      match user.password with
      | none => none
      | some storedHash =>
        if verifyPassword password storedHash then
          some { id := user.id
                 email := user.email
                 name := user.name
                 image := user.image
                 role := user.role
                 emailVerified := user.emailVerified }
        else
          none
  else
    none

/-- The Auth.js jwt-callback trigger values. -/
inductive Trigger where
  | signIn
  | signUp
  | update
deriving DecidableEq, Repr

/-- The token of the jwt strategy, restricted to the fields the callbacks
touch. Before the callback has written them the custom fields are absent,
hence the `Option` types. -/
structure JWT where
  id : Option String
  role : Option Role
  emailVerified : Option Timestamp
deriving DecidableEq, Repr

/-- The payload passed with a session `update` trigger; the callback reads
its `emailVerified` field. -/
structure SessionUpdate where
  emailVerified : Option Timestamp
deriving DecidableEq, Repr

/-- The jwt callback of the Auth.js configuration: on initial sign-in (user
present) copy id, role and emailVerified into the token; on an `update`
trigger with a payload overwrite only emailVerified. -/
def jwtCallback (token : JWT) (user : Option AuthUser) (trigger : Option Trigger)
    (sessionUpdate : Option SessionUpdate) : JWT :=
  let token :=
    match user with
    | some u =>
      { token with
        id := some u.id
        role := some u.role
        emailVerified := u.emailVerified }
    | none => token
  match trigger, sessionUpdate with
  | some .update, some s => { token with emailVerified := s.emailVerified }
  | _, _ => token

/-- The client-visible session user: the extended fields `\x7bid, role,
emailVerified\x7d` plus the base identity fields the framework supplies. -/
structure SessionUser where
  id : Option String
  role : Role
  emailVerified : Option Timestamp
  name : Option String
  email : Option String
  image : Option String
deriving DecidableEq, Repr

/-- A session object as handed to the session callback; the framework always
supplies the user object, so the callback's truthiness guard on
`session.user` and `token` is satisfied. -/
structure Session where
  user : SessionUser
deriving DecidableEq, Repr

/-- The session callback of the Auth.js configuration: copy id and
emailVerified from the token into the session user, and the role with a
fallback to `"user"` when the token's role is absent (the `|| "user"`). -/
def sessionCallback (session : Session) (token : JWT) : Session :=
  { session with
    user := { session.user with
              id := token.id
              role := token.role.getD Role.user
              emailVerified := token.emailVerified } }

/-- A JS value stored under a field name of a claims object. -/
inductive JsVal where
  | str : String → JsVal
  | optStr : Option String → JsVal
  | roleVal : Role → JsVal
  | time : Option Timestamp → JsVal
deriving DecidableEq, Repr

/-- The field entries of the object literal a successful `authorize` returns:
exactly the six properties written at src/unnamed/part_001 lines 110–118. -/
def authUserEntries (u : AuthUser) : List (String × JsVal) :=
  [("id", .str u.id), ("email", .str u.email), ("name", .optStr u.name),
   ("image", .optStr u.image), ("role", .roleVal u.role),
   ("emailVerified", .time u.emailVerified)]

/-- The field entries of a session's user object: the three extended claims
plus the base identity fields. -/
def sessionUserEntries (su : SessionUser) : List (String × JsVal) :=
  [("id", .optStr su.id), ("role", .roleVal su.role),
   ("emailVerified", .time su.emailVerified), ("name", .optStr su.name),
   ("email", .optStr su.email), ("image", .optStr su.image)]

/-- Outcome of a route guard: either the session proceeds, or the request is
redirected — `redirect` in the source throws and never returns, embedded here
as an explicit terminal constructor. -/
inductive GuardResult where
  | proceed : Session → GuardResult
  | redirectTo : String → GuardResult
deriving DecidableEq, Repr

/-- `requireAuth` from src/unnamed/part_000: redirect to /login when
`session?.user` is absent, else return the session. -/
def requireAuth (session : Option Session) : GuardResult :=
  match session with
  | none => .redirectTo "/login"
  | some s => .proceed s

/-- `requireRole` from src/unnamed/part_000: run `requireAuth`, then redirect
to /unauthorized when the session role is not among the allowed role
strings. -/
def requireRole (allowedRoles : List String) (session : Option Session) : GuardResult :=
  match requireAuth session with
  | .redirectTo dest => .redirectTo dest
  | .proceed s =>
    if allowedRoles.contains (roleString s.user.role) then .proceed s
    else .redirectTo "/unauthorized"

/-- The error types of an AuthError relevant to the credentials action. -/
inductive AuthErrorType where
  | credentialsSignin
  | otherError
deriving DecidableEq, Repr

/-- The result object of a server action: success flag with optional error or
message strings. -/
structure ActionResult where
  success : Bool
  error : Option String := none
  message : Option String := none
deriving DecidableEq, Repr

/-- Modelled from the spec: the framework `signIn("credentials", …)` call
(Auth.js library code, not in the repository) runs the configured `authorize`;
a null result surfaces as an AuthError of type CredentialsSignin, and a
non-null result redirects to the requested destination. -/
def frameworkSignIn (db : Db) (email password : String) : Except AuthErrorType Unit :=
  if (authorize db email password).isSome then .ok () else .error .credentialsSignin

/-- Outcome of the credentials sign-in action: a redirect (the rethrown
NEXT_REDIRECT on success) or a returned result object. -/
inductive SignInOutcome where
  | redirected : String → SignInOutcome
  | completed : ActionResult → SignInOutcome
deriving DecidableEq, Repr

/-- `signInWithCredentials` from src/app/actions/auth.ts: call the framework
sign-in with redirectTo /dashboard; map a CredentialsSignin AuthError to the
generic invalid-credentials message, any other AuthError to a generic retry
message, and rethrow the success redirect. -/
def signInWithCredentials (db : Db) (email password : String) : SignInOutcome :=
  match frameworkSignIn db email password with
  | .ok () => .redirected "/dashboard"
  | .error .credentialsSignin =>
    .completed { success := false, error := some "Invalid email or password" }
  | .error .otherError =>
    .completed { success := false, error := some "Something went wrong. Please try again." }

/-- A value thrown by the persistence layer: a JS Error object carrying a
message, or a thrown non-Error value. The catch block of `signUpAction`
distinguishes the two with `instanceof Error`. -/
inductive Thrown where
  | errObj : String → Thrown
  | nonError : Thrown
deriving DecidableEq, Repr

/-- `signUpAction` from src/app/actions/auth.ts. Inputs beyond the payload:
the id the database generates for a new row, the salt bcrypt draws, and an
optional value thrown by the insert. The result is the returned object, the
resulting identity store, and whether `hashPassword` was invoked. A thrown
ZodError and a thrown insert Error both reach the catch block, whose
`instanceof Error` branch returns the error's own message and whose other
branch returns the generic retry message. -/
def signUpAction (newId salt : String) (insertFailure : Option Thrown)
    (db : Db) (data : SignupInput) : ActionResult × Db × Bool :=
  match signupParse data with
  | .error msg => ({ success := false, error := some msg }, db, false)
  | .ok v =>
    match findUserByEmail db v.email with
    | some _ =>
      ({ success := false, error := some "An account with this email already exists" },
       db, false)
    | none =>
      let hashedPassword := hashPassword salt v.password
      match insertFailure with
      | some (.errObj msg) => ({ success := false, error := some msg }, db, true)
      | some .nonError =>
        ({ success := false
           error := some "An unexpected error occurred. Please try again." }, db, true)
      | none =>
        ({ success := true
           message := some "Account created successfully! Please check your email to verify your account." },
         db ++ [{ id := newId
                  name := some v.name
                  email := v.email
                  password := some hashedPassword
                  role := Role.user
                  emailVerified := none
                  image := none }],
         true)

/-! Concrete fixtures used by the witness theorems. -/

/-- The stored bcrypt digest of the demonstration account's password. -/
def demoDigest : BcryptDigest := hashPassword "demoSalt" "Secret1pw"

/-- A demonstration identity row with a credentials password. -/
def demoUser : DbUser :=
  { id := "u1"
    name := some "Ann"
    email := "ann@example.com"
    password := some demoDigest
    role := Role.user
    emailVerified := none
    image := none }

/-- A one-row identity store holding the demonstration account. -/
def demoDb : Db := [demoUser]

/-- The claims object `authorize` produces for the demonstration account. -/
def demoClaims : AuthUser :=
  { id := "u1"
    email := "ann@example.com"
    name := some "Ann"
    image := none
    role := Role.user
    emailVerified := none }

/-- A valid signup payload whose email collides with the demonstration
account's. -/
def demoSignup : SignupInput :=
  { name := "Ann", email := "ann@example.com", password := "Secret1pw" }

/-- A valid signup payload with an email no stored identity uses. -/
def demoFreshSignup : SignupInput :=
  { name := "Bob", email := "bob@example.com", password := "Another2pw" }

/-! Claim theorems. -/

/-- C1: a login with a wrong password for an existing credentials account and
a login with a nonexistent email produce the same rejected outcome: in both
cases `authorize` returns null and `signInWithCredentials` returns the same
generic "Invalid email or password" result, so the response does not reveal
whether the email exists. -/
theorem authorize_no_enumeration_signal (db : Db) (email password : String)
    (hcase : findUserByEmail db email = none ∨
      ∃ u storedHash, findUserByEmail db email = some u ∧
        u.password = some storedHash ∧ verifyPassword password storedHash = false) :
    authorize db email password = none ∧
      signInWithCredentials db email password =
        SignInOutcome.completed { success := false, error := some "Invalid email or password" } := by
  have hauth : authorize db email password = none := by
    unfold authorize
    cases hv : loginParse email password
    · simp
    · simp only [if_true]
      rcases hcase with hnone | ⟨u, storedHash, hfind, hpw, hver⟩
      · simp [hnone]
      · simp [hfind, hpw, hver]
  refine ⟨hauth, ?_⟩
  unfold signInWithCredentials frameworkSignIn
  rw [hauth]
  rfl

/-- C1 witness: the demonstration store rejects a login with an email that
matches no identity, with the generic message. -/
theorem authorize_no_enumeration_signal_witness :
    findUserByEmail demoDb "nobody@example.com" = none ∧
      (authorize demoDb "nobody@example.com" "Secret1pw" = none ∧
        signInWithCredentials demoDb "nobody@example.com" "Secret1pw" =
          SignInOutcome.completed { success := false, error := some "Invalid email or password" }) :=
  ⟨by decide,
   authorize_no_enumeration_signal demoDb "nobody@example.com" "Secret1pw" (Or.inl (by decide))⟩

/-- C2: token claims round-trip — issuing a token from an accepted identity
via the jwt callback and reading it back via the session callback yields a
session user carrying the same id, role and emailVerified. -/
theorem token_claims_roundtrip (t : JWT) (s : Session) (u : AuthUser) (trig : Option Trigger) :
    (sessionCallback s (jwtCallback t (some u) trig none)).user.id = some u.id ∧
      (sessionCallback s (jwtCallback t (some u) trig none)).user.role = u.role ∧
      (sessionCallback s (jwtCallback t (some u) trig none)).user.emailVerified = u.emailVerified := by
  cases trig with
  | none => exact ⟨rfl, rfl, rfl⟩
  | some tr => cases tr <;> exact ⟨rfl, rfl, rfl⟩

/-- C3: the claims an accepted credential authorization produces consist of
exactly the fields id, email, name, image, role, emailVerified — never the
password hash — and no session user derived from a token issued from those
claims carries a password field either. -/
theorem claims_exclude_password_hash (db : Db) (email password : String) (claims : AuthUser)
    (_h : authorize db email password = some claims) :
    (authUserEntries claims).map Prod.fst =
        ["id", "email", "name", "image", "role", "emailVerified"] ∧
      (∀ v : JsVal, ("password", v) ∉ authUserEntries claims) ∧
      ∀ (t : JWT) (s : Session) (trig : Option Trigger) (v : JsVal),
        ("password", v) ∉
          sessionUserEntries (sessionCallback s (jwtCallback t (some claims) trig none)).user := by
  refine ⟨rfl, ?_, ?_⟩
  · intro v hv
    simp [authUserEntries] at hv
  · intro t s trig v hv
    simp [sessionUserEntries] at hv

/-- C3 witness: the demonstration login is accepted with the expected claims
object, which has no password entry. -/
theorem claims_exclude_password_hash_witness :
    authorize demoDb "ann@example.com" "Secret1pw" = some demoClaims ∧
      ∀ v : JsVal, ("password", v) ∉ authUserEntries demoClaims :=
  ⟨by decide,
   (claims_exclude_password_hash demoDb "ann@example.com" "Secret1pw" demoClaims (by decide)).2.1⟩

/-- C4: without a session, `requireRole` redirects to the sign-in page via
`requireAuth`; with a session it redirects to /unauthorized exactly when the
session role is not among the allowed roles, and otherwise returns the
session unchanged. -/
theorem requireRole_gate (allowedRoles : List String) (s : Session) :
    requireRole allowedRoles none = GuardResult.redirectTo "/login" ∧
      requireRole allowedRoles (some s) =
        (if allowedRoles.contains (roleString s.user.role) then GuardResult.proceed s
         else GuardResult.redirectTo "/unauthorized") := by
  exact ⟨rfl, rfl⟩

/-- C5: a signup whose email already belongs to a stored identity returns the
conflict message, leaves the identity store unchanged (no second identity),
and never invokes the password hash. -/
theorem signUp_conflict (newId salt : String) (insertFailure : Option Thrown)
    (db : Db) (data v : SignupInput) (existing : DbUser)
    (hv : signupParse data = .ok v)
    (hex : findUserByEmail db v.email = some existing) :
    signUpAction newId salt insertFailure db data =
      ({ success := false, error := some "An account with this email already exists" },
       db, false) := by
  simp [signUpAction, hv, hex]

/-- C5 witness: signing up again with the demonstration account's email is
rejected with the conflict message, the store unchanged and no hash
computed. -/
theorem signUp_conflict_witness :
    signupParse demoSignup = Except.ok demoSignup ∧
      findUserByEmail demoDb demoSignup.email = some demoUser ∧
      signUpAction "u2" "saltX" none demoDb demoSignup =
        ({ success := false, error := some "An account with this email already exists" },
         demoDb, false) :=
  ⟨by rfl, by decide,
   signUp_conflict "u2" "saltX" none demoDb demoSignup demoSignup demoUser (by rfl) (by decide)⟩

/-- C6 (code bug): the spec requires an unexpected error during signup to
surface only as the generic retry message, but the catch block returns
`error.message` for every Error instance, so the internal text of an
unexpected insert Error reaches the client. -/
theorem signUp_unexpected_error_leaks_internal_text :
    (signUpAction "u2" "saltX" (some (Thrown.errObj "database connection refused"))
        ([] : Db) demoFreshSignup).1 =
      { success := false, error := some "database connection refused" } ∧
      (signUpAction "u2" "saltX" (some (Thrown.errObj "database connection refused"))
        ([] : Db) demoFreshSignup).1.error ≠
        some "An unexpected error occurred. Please try again." :=
  ⟨by decide, by decide⟩

/-- C7: the jwt callback on an update trigger carrying a session payload
overwrites only the token's emailVerified field, leaving id and role
unchanged. -/
theorem jwt_update_overwrites_only_emailVerified (t : JWT) (su : SessionUpdate) :
    (jwtCallback t none (some Trigger.update) (some su)).emailVerified = su.emailVerified ∧
      (jwtCallback t none (some Trigger.update) (some su)).id = t.id ∧
      (jwtCallback t none (some Trigger.update) (some su)).role = t.role :=
  ⟨rfl, rfl, rfl⟩

/-- C8: a valid signup with a fresh email returns the success result and
appends exactly one identity whose role is the standard-user role and whose
emailVerified is null, with the hashed password stored. -/
theorem signUp_fresh_email_creates_user (newId salt : String) (db : Db) (data v : SignupInput)
    (hv : signupParse data = .ok v)
    (hfresh : findUserByEmail db v.email = none) :
    signUpAction newId salt none db data =
      ({ success := true
         message := some "Account created successfully! Please check your email to verify your account." },
       db ++ [{ id := newId
                name := some v.name
                email := v.email
                password := some (hashPassword salt v.password)
                role := Role.user
                emailVerified := none
                image := none }],
       true) := by
  simp [signUpAction, hv, hfresh]

/-- C8 witness: the fresh-email demonstration payload signs up successfully
into an empty store, creating a standard user with null verification. -/
theorem signUp_fresh_email_creates_user_witness :
    signupParse demoFreshSignup = Except.ok demoFreshSignup ∧
      findUserByEmail ([] : Db) demoFreshSignup.email = none ∧
      signUpAction "u2" "saltX" none ([] : Db) demoFreshSignup =
        ({ success := true
           message := some "Account created successfully! Please check your email to verify your account." },
         ([] : Db) ++ [{ id := "u2"
                         name := some demoFreshSignup.name
                         email := demoFreshSignup.email
                         password := some (hashPassword "saltX" demoFreshSignup.password)
                         role := Role.user
                         emailVerified := none
                         image := none }],
         true) :=
  ⟨by rfl, by decide,
   signUp_fresh_email_creates_user "u2" "saltX" ([] : Db) demoFreshSignup demoFreshSignup
     (by rfl) (by decide)⟩

/-- C9: verifying a plaintext of length at least one against its own hash
succeeds, and verifying it against the hash of a different plaintext returns
false (rather than throwing), for any salts the library draws. -/
theorem password_hash_roundtrip (salt1 salt2 p q : String)
    (_hp : 1 ≤ p.length) (hpq : p ≠ q) :
    verifyPassword p (hashPassword salt1 p) = true ∧
      verifyPassword p (hashPassword salt2 q) = false := by
  constructor
  · simp [verifyPassword, hashPassword, bcryptCompare, bcryptHash]
  · simp [verifyPassword, hashPassword, bcryptCompare, bcryptHash]
    exact Ne.symm hpq

/-- C9 witness: the round-trip and mismatch results at concrete plaintexts
and salts. -/
theorem password_hash_roundtrip_witness :
    1 ≤ "Secret1pw".length ∧ "Secret1pw" ≠ "Other2pw" ∧
      (verifyPassword "Secret1pw" (hashPassword "s1" "Secret1pw") = true ∧
        verifyPassword "Secret1pw" (hashPassword "s2" "Other2pw") = false) :=
  ⟨by decide, by decide,
   password_hash_roundtrip "s1" "s2" "Secret1pw" "Other2pw" (by decide) (by decide)⟩

/-- C10: the session callback copies the token's role into the session user
when it is set and falls back to the standard-user role when it is absent, so
the client-visible role is always one of the three enum values. -/
theorem session_role_fallback (s : Session) (t : JWT) :
    (sessionCallback s t).user.role = t.role.getD Role.user ∧
      (sessionCallback s t).user.role ∈ [Role.admin, Role.user, Role.viewer] := by
  constructor
  · rfl
  · cases h : t.role with
    | none => simp [sessionCallback, h]
    | some r => cases r <;> simp [sessionCallback, h]

end Aegis
